import Mathlib

/-
Verification development for the render job pipeline of the github-stats-api
repository. The TypeScript sources are embedded shallowly: module-level mutable
state becomes explicit state passing, asynchronous operations become functions
from an environment describing how each external effect behaves, and thrown
errors become Except values carrying the error message.
-/

namespace GHStats

/-- Boolean test that the first character list is an initial segment of the second. -/
def leadsWith : List Char → List Char → Bool
  | [], _ => true
  | _ :: _, [] => false
  | a :: as, b :: bs => a == b && leadsWith as bs

/-- Boolean test that the pattern occurs contiguously somewhere in the list. -/
def occursIn (pat : List Char) : List Char → Bool
  | [] => leadsWith pat []
  | b :: bs => leadsWith pat (b :: bs) || occursIn pat bs

/-- Model of the JavaScript expression s.includes(pat). -/
def includes (s pat : String) : Bool := occursIn pat.data s.data

/- ===================== Transcode Stage (convertVideoToWebP) ===================== -/

/-- Conversion options of convertVideoToWebP: quality and fps, both optional. -/
structure ConvertOptions where
  quality : Option Int := none
  fps : Option Int := none

/-- adjustedQuality of the first convertVideoToWebP variant
(src/unnamed/part_000 line 181): Math.max(60, Math.min(70, quality)). -/
def adjustedQuality (quality : Int) : Int := max 60 (min 70 quality)

/-- The ffmpeg command template of the first convertVideoToWebP variant
(src/unnamed/part_000 line 182); it receives the already-adjusted quality,
exactly as the template literal interpolates adjustedQuality. -/
def ffmpegCommandV1 (inputPath outputPath : String) (adjQuality fps : Int) : String :=
  "ffmpeg -i \"" ++ inputPath ++ "\" -vf \"fps=" ++ toString fps ++
  "\" -c:v libwebp -q:v " ++ toString adjQuality ++
  " -compression_level 6 -lossless 0 -loop 0 -an -vsync 0 -pix_fmt yuv420p -y \"" ++
  outputPath ++ "\""

/-- The ffmpeg command template of the second convertVideoToWebP variant
(src/unnamed/part_000 line 256); it interpolates the raw quality value. -/
def ffmpegCommandV2 (inputPath outputPath : String) (quality fps : Int) : String :=
  "ffmpeg -i \"" ++ inputPath ++ "\" -vf \"fps=" ++ toString fps ++
  "\" -c:v libwebp -quality " ++ toString quality ++
  " -compression_level 6 -method 6 -loop 0 -an -vsync 0 -pix_fmt yuv420p -y \"" ++
  outputPath ++ "\""

/-- Behavior of the filesystem and of the ffmpeg subprocess during one
convertVideoToWebP call: whether writeFile rejects, whether execAsync rejects,
the stderr text when it resolves, the bytes of the output file ffmpeg produced
(none when no output file appears), and whether each unlink call rejects. -/
structure TranscodeEnv where
  writeErr : Option String
  execErr : Option String
  stderr : String
  outputBytes : Option (List Nat)
  unlinkInputFails : Bool
  unlinkOutputFails : Bool

/-- The set of paths present on disk, as a list. -/
abbrev Fs := List String

/-- writeFile: the path exists afterwards. -/
def writePath (p : String) (fs : Fs) : Fs := if p ∈ fs then fs else p :: fs

/-- unlink(p).catch(noop): removes p from disk unless the unlink itself rejects,
in which case the rejection is swallowed and the file stays. -/
def unlinkSwallow (fails : Bool) (p : String) (fs : Fs) : Fs :=
  if fails then fs else fs.filter (fun q => q != p)

/-- Result of one convertVideoToWebP call: the final filesystem, the returned
value or error message, and the subprocess command lines that were executed. -/
structure TranscodeResult where
  fs : Fs
  result : Except String (List Nat)
  cmds : List String

/-- The two best-effort unlink calls that convertVideoToWebP performs before
returning, on the success path as well as in the catch block. -/
def cleanupTemp (env : TranscodeEnv) (inputPath outputPath : String) (fs : Fs)
    (cmds : List String) (r : Except String (List Nat)) : TranscodeResult :=
  { fs := unlinkSwallow env.unlinkOutputFails outputPath
            (unlinkSwallow env.unlinkInputFails inputPath fs),
    result := r, cmds := cmds }

/-- Shallow embedding of the first convertVideoToWebP variant
(src/unnamed/part_000 lines 147-213). The generated unique temp paths and the
video buffer are parameters; quality defaults to 85 and fps to 30; every throw
inside the try block lands in the catch block, which cleans up and rethrows the
error wrapped as a conversion failure. -/
def convertVideoToWebP (env : TranscodeEnv) (fs0 : Fs) (inputPath outputPath : String)
    (videoBuffer : List Nat) (options : ConvertOptions) : TranscodeResult :=
  let quality := options.quality.getD 85
  let fps := options.fps.getD 30
  match env.writeErr with
  | some m =>
      cleanupTemp env inputPath outputPath fs0 []
        (.error ("Failed to convert video to WebP: " ++ m))
  | none =>
    let fs1 := writePath inputPath fs0
    let cmd := ffmpegCommandV1 inputPath outputPath (adjustedQuality quality) fps
    let fs2 := match env.outputBytes with
      | some _ => writePath outputPath fs1
      | none => fs1
    match env.execErr with
    | some m =>
        cleanupTemp env inputPath outputPath fs2 [cmd]
          (.error ("Failed to convert video to WebP: " ++ m))
    | none =>
      if includes env.stderr "Error" then
        cleanupTemp env inputPath outputPath fs2 [cmd]
          (.error ("Failed to convert video to WebP: FFmpeg conversion failed: " ++ env.stderr))
      else
        match env.outputBytes with
        | none =>
            cleanupTemp env inputPath outputPath fs2 [cmd]
              (.error ("Failed to convert video to WebP: ENOENT: no such file or directory, open " ++ outputPath))
        | some b => cleanupTemp env inputPath outputPath fs2 [cmd] (.ok b)

/-- Shallow embedding of the second convertVideoToWebP variant
(src/unnamed/part_000 lines 229-285); identical control flow, but the command
interpolates the raw quality value with the -quality flag. -/
def convertVideoToWebPSecond (env : TranscodeEnv) (fs0 : Fs) (inputPath outputPath : String)
    (videoBuffer : List Nat) (options : ConvertOptions) : TranscodeResult :=
  let quality := options.quality.getD 85
  let fps := options.fps.getD 30
  match env.writeErr with
  | some m =>
      cleanupTemp env inputPath outputPath fs0 []
        (.error ("Failed to convert video to WebP: " ++ m))
  | none =>
    let fs1 := writePath inputPath fs0
    let cmd := ffmpegCommandV2 inputPath outputPath quality fps
    let fs2 := match env.outputBytes with
      | some _ => writePath outputPath fs1
      | none => fs1
    match env.execErr with
    | some m =>
        cleanupTemp env inputPath outputPath fs2 [cmd]
          (.error ("Failed to convert video to WebP: " ++ m))
    | none =>
      if includes env.stderr "Error" then
        cleanupTemp env inputPath outputPath fs2 [cmd]
          (.error ("Failed to convert video to WebP: FFmpeg conversion failed: " ++ env.stderr))
      else
        match env.outputBytes with
        | none =>
            cleanupTemp env inputPath outputPath fs2 [cmd]
              (.error ("Failed to convert video to WebP: ENOENT: no such file or directory, open " ++ outputPath))
        | some b => cleanupTemp env inputPath outputPath fs2 [cmd] (.ok b)

/-- A demonstration environment in which everything succeeds. -/
def demoTranscodeEnv : TranscodeEnv :=
  { writeErr := none, execErr := none, stderr := "", outputBytes := some [1, 2, 3],
    unlinkInputFails := false, unlinkOutputFails := false }

/- ============== Shared Rendering-Engine Handle (remotion-browser) ============== -/

/-- Eventual outcome of a settled promise. -/
inductive PromiseOutcome
  | success
  | failure (msg : String)
deriving DecidableEq

/-- State of the remotion-browser module: the cached browserPromise (identified
by the index of the openBrowser call that created it) and how many times
openBrowser has been invoked. -/
structure BrowserModule where
  browserPromise : Option Nat
  openBrowserCalls : Nat
deriving DecidableEq

/-- Module state at load: browserPromise is null. -/
def browserInit : BrowserModule := { browserPromise := none, openBrowserCalls := 0 }

/-- getSharedRemotionBrowser (src/unnamed/part_000 lines 111-122): returns the
cached promise if present, otherwise calls openBrowser once, caches the new
promise, and returns it. The call body contains no await, so each call is one
atomic step of the event loop. -/
def getSharedRemotionBrowser (s : BrowserModule) : BrowserModule × Nat :=
  match s.browserPromise with
  | some p => (s, p)
  | none =>
      ({ browserPromise := some s.openBrowserCalls,
         openBrowserCalls := s.openBrowserCalls + 1 }, s.openBrowserCalls)

/-- n sequential acquire calls; returns the final module state and the list of
promises handed to the callers, in order. -/
def acquireSeq : Nat → BrowserModule → BrowserModule × List Nat
  | 0, s => (s, [])
  | n + 1, s =>
      let r1 := getSharedRemotionBrowser s
      let r2 := acquireSeq n r1.1
      (r2.1, r1.2 :: r2.2)

/-- closeSharedRemotionBrowser (src/unnamed/part_000 lines 124-129): a no-op when
no promise is cached; otherwise it awaits the cached promise first. When that
promise was rejected the await throws before the line that clears
browserPromise, so the cached promise stays. Only on a resolved promise is
browserPromise cleared and b.close() awaited, whose outcome closeResult gives. -/
def closeSharedRemotionBrowser (outcome : Nat → PromiseOutcome)
    (closeResult : Nat → Except String Unit) (s : BrowserModule) :
    BrowserModule × Except String Unit :=
  match s.browserPromise with
  | none => (s, .ok ())
  | some p =>
      match outcome p with
      | .failure m => (s, .error m)
      | .success => ({ s with browserPromise := none }, closeResult p)

/-- A world in which every initialization promise is rejected. -/
def failingOutcome : Nat → PromiseOutcome := fun _ => .failure "browser launch failed"

/-- A browser module state holding one cached (possibly rejected) promise. -/
def demoBrowserState : BrowserModule := { browserPromise := some 0, openBrowserCalls := 1 }

/- ===================== Retry/Timeout Combinator ===================== -/

/-- Behavior of one asynchronous operation run: when it settles (none = never
settles) and with what result. -/
structure AttemptBehavior (α : Type) where
  settleTime : Option Nat
  result : Except String α

/-- The message of the rejection produced by the timer branch of withTimeout. -/
def timeoutMessage (name : String) (timeoutMs : Nat) : String :=
  name ++ " timed out after " ++ toString timeoutMs ++ "ms"

/-- withTimeout (src/unnamed/part_000 lines 303-314): Promise.race of the
operation against a timer that rejects after timeoutMs. -/
def withTimeout {α : Type} (b : AttemptBehavior α) (timeoutMs : Nat) (name : String) :
    Except String α :=
  match b.settleTime with
  | some t => if t ≤ timeoutMs then b.result else .error (timeoutMessage name timeoutMs)
  | none => .error (timeoutMessage name timeoutMs)

/-- Boolean test that the operation loses the race against the timer. -/
def timesOutAgainst {α : Type} (b : AttemptBehavior α) (timeoutMs : Nat) : Bool :=
  match b.settleTime with
  | some t => timeoutMs < t
  | none => true

/-- Options of withRetry, with the default values of the destructuring at
src/unnamed/part_000 line 320. -/
structure RetryOpts where
  name : String
  attempts : Nat := 10
  delayMs : Nat := 1500
  timeoutMs : Nat := 15000

/-- The guarded result of the i-th attempt (1-based) inside withRetry. -/
def attemptResult {α : Type} (fn : Nat → AttemptBehavior α) (opts : RetryOpts)
    (i : Nat) : Except String α :=
  withTimeout (fn i) opts.timeoutMs opts.name

/-- The aggregated error message thrown after the last attempt
(src/unnamed/part_000 line 335). -/
def aggregatedMessage (name : String) (attempts : Nat) (lastErr : String) : String :=
  name ++ " failed after " ++ toString attempts ++ " attempts: " ++ lastErr

/-- The retry loop of withRetry (src/unnamed/part_000 lines 316-336): attempt is
the 1-based index of the next attempt, remaining counts attempts left, sleeps
counts the inter-attempt delays inserted so far. The sleep happens only when
another attempt remains. -/
def withRetryGo {α : Type} (fn : Nat → AttemptBehavior α) (opts : RetryOpts) :
    Nat → Nat → String → Nat → Except String α × Nat
  | 0, _, lastErr, sleeps =>
      (.error (aggregatedMessage opts.name opts.attempts lastErr), sleeps)
  | remaining + 1, attempt, _, sleeps =>
      match attemptResult fn opts attempt with
      | .ok v => (.ok v, sleeps)
      | .error e =>
          if remaining = 0 then withRetryGo fn opts remaining (attempt + 1) e sleeps
          else withRetryGo fn opts remaining (attempt + 1) e (sleeps + 1)

/-- withRetry: runs up to opts.attempts guarded attempts, returning the first
success or the aggregated error, together with the number of delays slept.
The initial lastErr models the undefined of the uninitialized let binding. -/
def withRetry {α : Type} (fn : Nat → AttemptBehavior α) (opts : RetryOpts) :
    Except String α × Nat :=
  withRetryGo fn opts opts.attempts 1 "undefined" 0

/-- A demonstration operation: the first attempt fails, the second succeeds. -/
def demoRetryFn : Nat → AttemptBehavior Nat
  | 1 => { settleTime := some 10, result := .error "boom" }
  | _ => { settleTime := some 10, result := .ok 42 }

/-- Demonstration options: three attempts, small delay, generous deadline. -/
def demoRetryOpts : RetryOpts :=
  { name := "op", attempts := 3, delayMs := 5, timeoutMs := 100 }

/-- A demonstration operation that never settles. -/
def demoHangingFn : Nat → AttemptBehavior Nat :=
  fun _ => { settleTime := none, result := .ok 0 }

/- ===================== Dependency Readiness Checks ===================== -/

/-- The per-call options of the exported check functions; none means the default. -/
structure CheckOpts where
  attempts : Option Nat := none
  delayMs : Option Nat := none
  timeoutMs : Option Nat := none

/-- The environment values interpolated into the check names. -/
structure EnvConfig where
  redisUrl : String := "redis://localhost:6379"
  minioEndpoint : String := "localhost"
  minioPort : String := "9000"
  minioBucket : String := "github-stats"
  githubAppId : String := "1"

/-- Name of the Redis check (src/unnamed/part_000 line 382). -/
def redisCheckName (env : EnvConfig) : String :=
  "Redis reachable (REDIS_URL=" ++ env.redisUrl ++ ")"

/-- Name of the MinIO check (src/unnamed/part_000 line 392). -/
def minioCheckName (env : EnvConfig) : String :=
  "MinIO reachable (endpoint=" ++ env.minioEndpoint ++ ":" ++ env.minioPort ++
  ", bucket=" ++ env.minioBucket ++ ")"

/-- Name of the GitHub App check (src/unnamed/part_000 line 406). -/
def githubCheckName (env : EnvConfig) : String :=
  "GitHub reachable + App auth valid (appId=" ++ env.githubAppId ++ ")"

/-- Retry options used by checkRedisReachable: defaults 10 attempts, 1500ms
delay, 5000ms timeout (src/unnamed/part_000 line 382). -/
def redisRetryOpts (env : EnvConfig) (opts : CheckOpts) : RetryOpts :=
  { name := redisCheckName env, attempts := opts.attempts.getD 10,
    delayMs := opts.delayMs.getD 1500, timeoutMs := opts.timeoutMs.getD 5000 }

/-- Retry options used by checkMinioReachable: defaults 10 attempts, 2000ms
delay, 15000ms timeout (src/unnamed/part_000 lines 391-396). -/
def minioRetryOpts (env : EnvConfig) (opts : CheckOpts) : RetryOpts :=
  { name := minioCheckName env, attempts := opts.attempts.getD 10,
    delayMs := opts.delayMs.getD 2000, timeoutMs := opts.timeoutMs.getD 15000 }

/-- Retry options used by checkGitHubAppReachable: defaults 5 attempts, 2000ms
delay, 15000ms timeout (src/unnamed/part_000 lines 405-410). -/
def githubRetryOpts (env : EnvConfig) (opts : CheckOpts) : RetryOpts :=
  { name := githubCheckName env, attempts := opts.attempts.getD 5,
    delayMs := opts.delayMs.getD 2000, timeoutMs := opts.timeoutMs.getD 15000 }

/-- Retry options used by checkRendererWarmup: fixed 3 attempts, 2000ms delay,
120000ms timeout (src/unnamed/part_000 line 420). -/
def warmupRetryOpts : RetryOpts :=
  { name := "Remotion bundle warmup", attempts := 3, delayMs := 2000, timeoutMs := 120000 }

/-- Behavior of the external dependencies, one AttemptBehavior per attempt index:
redis.ping (returning the reply string), ensureBucket, checkGitHubAppAuth, and
warmupBundle. -/
structure DependencyBehaviors where
  ping : Nat → AttemptBehavior String
  ensureBucket : Nat → AttemptBehavior Unit
  githubAppAuth : Nat → AttemptBehavior Unit
  warmupBundle : Nat → AttemptBehavior Unit

/-- The closure retried by checkRedisReachable (src/unnamed/part_000 lines
376-381): ping, then throw unless the reply is exactly PONG. -/
def redisProbeFn (ping : Nat → AttemptBehavior String) (i : Nat) : AttemptBehavior Unit :=
  { settleTime := (ping i).settleTime,
    result :=
      match (ping i).result with
      | .ok pong => if pong = "PONG" then .ok () else
          .error ("Unexpected Redis PING response: " ++ pong)
      | .error e => .error e }

/-- checkRedisReachable (src/unnamed/part_000 lines 374-384). -/
def checkRedisReachable (env : EnvConfig) (b : DependencyBehaviors) (opts : CheckOpts) :
    Except String Unit × Nat :=
  withRetry (redisProbeFn b.ping) (redisRetryOpts env opts)

/-- checkMinioReachable (src/unnamed/part_000 lines 386-398). -/
def checkMinioReachable (env : EnvConfig) (b : DependencyBehaviors) (opts : CheckOpts) :
    Except String Unit × Nat :=
  withRetry b.ensureBucket (minioRetryOpts env opts)

/-- checkGitHubAppReachable (src/unnamed/part_000 lines 400-412). -/
def checkGitHubAppReachable (env : EnvConfig) (b : DependencyBehaviors) (opts : CheckOpts) :
    Except String Unit × Nat :=
  withRetry b.githubAppAuth (githubRetryOpts env opts)

/-- checkRendererWarmup (src/unnamed/part_000 lines 414-422). -/
def checkRendererWarmup (b : DependencyBehaviors) : Except String Unit × Nat :=
  withRetry b.warmupBundle warmupRetryOpts

/-- The role of the process running the startup checks. -/
inductive ServiceRole
  | api
  | worker
deriving DecidableEq

/-- Names of the four dependency checks, for recording which ones ran. -/
inductive CheckName
  | redis
  | minio
  | github
  | warmup
deriving DecidableEq

/-- runStartupChecks (src/unnamed/part_000 lines 424-450): the checks run
sequentially with their default options; the first failure propagates (the
following checks do not run); the warmup check runs only for the worker role. -/
def runStartupChecks (role : ServiceRole) (env : EnvConfig) (b : DependencyBehaviors) :
    Except String Unit × List CheckName :=
  match (checkRedisReachable env b {}).1 with
  | .error e => (.error e, [.redis])
  | .ok _ =>
    match (checkMinioReachable env b {}).1 with
    | .error e => (.error e, [.redis, .minio])
    | .ok _ =>
      match (checkGitHubAppReachable env b {}).1 with
      | .error e => (.error e, [.redis, .minio, .github])
      | .ok _ =>
        match role with
        | .worker =>
          match (checkRendererWarmup b).1 with
          | .error e => (.error e, [.redis, .minio, .github, .warmup])
          | .ok _ => (.ok (), [.redis, .minio, .github, .warmup])
        | .api => (.ok (), [.redis, .minio, .github])

/-- The JSON body and status code produced by GET /ready. -/
structure ReadyResponse where
  status : String
  serverCheck : Bool
  redisCheck : Bool
  minioCheck : Bool
  githubCheck : Bool
  httpStatus : Nat
deriving DecidableEq

/-- The boolean a try/catch block records: true when the awaited call returned,
false when it threw. -/
def succeeds {α : Type} : Except String α → Bool
  | .ok _ => true
  | .error _ => false

/-- The aggregation at the end of the /ready handler: allHealthy is the
conjunction of every recorded check, server being constantly true. -/
def readyVerdict (redisOk minioOk githubOk : Bool) : ReadyResponse :=
  let allHealthy := true && redisOk && minioOk && githubOk
  { status := if allHealthy then "ready" else "degraded",
    serverCheck := true, redisCheck := redisOk, minioCheck := minioOk,
    githubCheck := githubOk,
    httpStatus := if allHealthy then 200 else 503 }

/-- The /ready handler (src/packages/server/src/routes/health.ts lines 13-55):
each check runs with attempts forced to 1, delay 0 and a short timeout, inside
its own try/catch, so one failure never prevents the next check; the verdict is
ready with 200 exactly when every recorded check is true, else degraded with 503. -/
def readyEndpoint (env : EnvConfig) (b : DependencyBehaviors) : ReadyResponse :=
  readyVerdict
    (succeeds (checkRedisReachable env b
      { attempts := some 1, timeoutMs := some 1500, delayMs := some 0 }).1)
    (succeeds (checkMinioReachable env b
      { attempts := some 1, timeoutMs := some 4000, delayMs := some 0 }).1)
    (succeeds (checkGitHubAppReachable env b
      { attempts := some 1, timeoutMs := some 4000, delayMs := some 0 }).1)

/-- Dependency behaviors in which every probe succeeds promptly. -/
def allGoodBehaviors : DependencyBehaviors :=
  { ping := fun _ => { settleTime := some 5, result := .ok "PONG" },
    ensureBucket := fun _ => { settleTime := some 5, result := .ok () },
    githubAppAuth := fun _ => { settleTime := some 5, result := .ok () },
    warmupBundle := fun _ => { settleTime := some 5, result := .ok () } }

/-- Dependency behaviors in which only the MinIO probe fails. -/
def minioDownBehaviors : DependencyBehaviors :=
  { allGoodBehaviors with
    ensureBucket := fun _ => { settleTime := some 5, result := .error "bucket unreachable" } }

/-- The default environment values used in the demonstration theorems. -/
def demoEnvConfig : EnvConfig := {}

/- ===================== Job Queue & Worker Pool ===================== -/

/-- Modelled from the spec: the Job Queue and Worker Pool of section 4.5. The
worker-pool implementation (packages/server/src/workers/render-worker.ts and
packages/server/src/services/queue.ts) is not among the provided sources, so
the pool is modelled from the spec text: jobs move queued to active to a
terminal state, and a worker may activate a queued job only while fewer than W
jobs are active, where W is the configured concurrency limit. -/
structure PoolState where
  maxW : Nat
  queued : List Nat
  active : List Nat
  terminal : List Nat
deriving DecidableEq

/-- Modelled from the spec: pool with no jobs yet. -/
def poolInit (W : Nat) : PoolState := { maxW := W, queued := [], active := [], terminal := [] }

/-- Modelled from the spec: the three events of the pool. submit enqueues a job;
dispatch moves the FIFO head of the queue to active, enabled only while the
active set is below the concurrency limit; finish moves an active job to a
terminal state. -/
inductive PoolStep : PoolState → PoolState → Prop
  | submit (s : PoolState) (j : Nat) :
      PoolStep s { s with queued := s.queued ++ [j] }
  | dispatch (s : PoolState) (j : Nat) (rest : List Nat)
      (hq : s.queued = j :: rest) (hW : s.active.length < s.maxW) :
      PoolStep s { s with queued := rest, active := j :: s.active }
  | finish (s : PoolState) (j : Nat) (hj : j ∈ s.active) :
      PoolStep s { s with active := s.active.erase j, terminal := j :: s.terminal }

/-- Modelled from the spec: the states the pool can reach from the initial state. -/
def PoolReachable (W : Nat) (s : PoolState) : Prop :=
  Relation.ReflTransGen PoolStep (poolInit W) s

/- ===================== Helper lemmas ===================== -/

theorem leadsWith_append (p t : List Char) : leadsWith p (p ++ t) = true := by
  induction p with
  | nil => rfl
  | cons a as ih => simp [leadsWith, ih]

theorem occursIn_of_leadsWith {pat l : List Char} (h : leadsWith pat l = true) :
    occursIn pat l = true := by
  cases l with
  | nil => simpa [occursIn] using h
  | cons b bs => simp [occursIn, h]

theorem occursIn_cons {pat : List Char} (b : Char) {bs : List Char}
    (h : occursIn pat bs = true) : occursIn pat (b :: bs) = true := by
  simp [occursIn, h]

theorem occursIn_append_left {pat t : List Char} (s : List Char)
    (h : occursIn pat t = true) : occursIn pat (s ++ t) = true := by
  induction s with
  | nil => simpa using h
  | cons a as ih => simpa [List.cons_append] using occursIn_cons a ih

theorem includes_of_data {s pat : String} (pre post : List Char)
    (h : s.data = pre ++ (pat.data ++ post)) : includes s pat = true := by
  unfold includes
  rw [h]
  exact occursIn_append_left pre (occursIn_of_leadsWith (leadsWith_append _ _))

theorem not_mem_unlinkSwallow (p : String) (fs : Fs) :
    p ∉ unlinkSwallow false p fs := by
  simp [unlinkSwallow]

theorem not_mem_unlinkSwallow_of (b : Bool) (p q : String) (fs : Fs)
    (h : p ∉ fs) : p ∉ unlinkSwallow b q fs := by
  cases b <;> simp_all [unlinkSwallow, List.mem_filter]

theorem cleanupTemp_not_mem (env : TranscodeEnv) (i o : String) (fs : Fs)
    (cmds : List String) (r : Except String (List Nat))
    (hin : env.unlinkInputFails = false) (hout : env.unlinkOutputFails = false) :
    i ∉ (cleanupTemp env i o fs cmds r).fs ∧ o ∉ (cleanupTemp env i o fs cmds r).fs := by
  unfold cleanupTemp
  rw [hin, hout]
  exact ⟨not_mem_unlinkSwallow_of false i o _ (not_mem_unlinkSwallow i fs),
         not_mem_unlinkSwallow o _⟩

theorem convert_is_cleanup (env : TranscodeEnv) (fs0 : Fs) (i o : String)
    (buf : List Nat) (opts : ConvertOptions) :
    ∃ fsX cmds r, convertVideoToWebP env fs0 i o buf opts = cleanupTemp env i o fsX cmds r := by
  unfold convertVideoToWebP
  cases env.writeErr with
  | some m => exact ⟨_, _, _, rfl⟩
  | none =>
      cases env.execErr with
      | some m => exact ⟨_, _, _, rfl⟩
      | none =>
          cases h : includes env.stderr "Error" with
          | true => simp only [h]; exact ⟨_, _, _, rfl⟩
          | false =>
              cases env.outputBytes with
              | none => simp only [h]; exact ⟨_, _, _, rfl⟩
              | some b => simp only [h]; exact ⟨_, _, _, rfl⟩

theorem convert_unlink_independent (env : TranscodeEnv) (fs0 : Fs) (i o : String)
    (buf : List Nat) (opts : ConvertOptions) (b1 b2 : Bool) :
    (convertVideoToWebP { env with unlinkInputFails := b1, unlinkOutputFails := b2 }
        fs0 i o buf opts).result =
      (convertVideoToWebP env fs0 i o buf opts).result := by
  cases env with
  | mk w e st ob u1 u2 =>
      simp only [convertVideoToWebP, cleanupTemp]
      cases w <;> cases e <;> cases ob <;> cases includes st "Error" <;> rfl

theorem convertSecond_is_cleanup (env : TranscodeEnv) (fs0 : Fs) (i o : String)
    (buf : List Nat) (opts : ConvertOptions) :
    ∃ fsX cmds r,
      convertVideoToWebPSecond env fs0 i o buf opts = cleanupTemp env i o fsX cmds r := by
  unfold convertVideoToWebPSecond
  cases env.writeErr with
  | some m => exact ⟨_, _, _, rfl⟩
  | none =>
      cases env.execErr with
      | some m => exact ⟨_, _, _, rfl⟩
      | none =>
          cases h : includes env.stderr "Error" with
          | true => simp only [h]; exact ⟨_, _, _, rfl⟩
          | false =>
              cases env.outputBytes with
              | none => simp only [h]; exact ⟨_, _, _, rfl⟩
              | some b => simp only [h]; exact ⟨_, _, _, rfl⟩

theorem convertSecond_unlink_independent (env : TranscodeEnv) (fs0 : Fs) (i o : String)
    (buf : List Nat) (opts : ConvertOptions) (b1 b2 : Bool) :
    (convertVideoToWebPSecond { env with unlinkInputFails := b1, unlinkOutputFails := b2 }
        fs0 i o buf opts).result =
      (convertVideoToWebPSecond env fs0 i o buf opts).result := by
  cases env with
  | mk w e st ob u1 u2 =>
      simp only [convertVideoToWebPSecond, cleanupTemp]
      cases w <;> cases e <;> cases ob <;> cases includes st "Error" <;> rfl

theorem convert_cmds_eq (env : TranscodeEnv) (fs0 : Fs) (i o : String)
    (buf : List Nat) (opts : ConvertOptions) (henv : env.writeErr = none) :
    (convertVideoToWebP env fs0 i o buf opts).cmds =
      [ffmpegCommandV1 i o (adjustedQuality (opts.quality.getD 85)) (opts.fps.getD 30)] := by
  unfold convertVideoToWebP
  rw [henv]
  cases env.execErr with
  | some m => rfl
  | none =>
      cases h : includes env.stderr "Error" with
      | true => simp only [h]; cases env.outputBytes <;> rfl
      | false => simp only [h]; cases env.outputBytes <;> rfl

theorem convertSecond_cmds_eq (env : TranscodeEnv) (fs0 : Fs) (i o : String)
    (buf : List Nat) (opts : ConvertOptions) (henv : env.writeErr = none) :
    (convertVideoToWebPSecond env fs0 i o buf opts).cmds =
      [ffmpegCommandV2 i o (opts.quality.getD 85) (opts.fps.getD 30)] := by
  unfold convertVideoToWebPSecond
  rw [henv]
  cases env.execErr with
  | some m => rfl
  | none =>
      cases h : includes env.stderr "Error" with
      | true => simp only [h]; cases env.outputBytes <;> rfl
      | false => simp only [h]; cases env.outputBytes <;> rfl

/- ===================== Claim theorems ===================== -/

/-- C1: both convertVideoToWebP variants remove both the input and the output
temporary file before returning, on every exit path — normal success,
subprocess failure, error-pattern diagnostic, and missing output file are all
instances of the universally quantified environment — and a failure of a
removal is swallowed: the returned result is the same whatever the unlink
calls do. -/
theorem transcode_cleanup_every_exit_path (env : TranscodeEnv) (fs0 : Fs)
    (inputPath outputPath : String) (videoBuffer : List Nat) (options : ConvertOptions)
    (hin : env.unlinkInputFails = false) (hout : env.unlinkOutputFails = false) :
    inputPath ∉ (convertVideoToWebP env fs0 inputPath outputPath videoBuffer options).fs ∧
    outputPath ∉ (convertVideoToWebP env fs0 inputPath outputPath videoBuffer options).fs ∧
    inputPath ∉
      (convertVideoToWebPSecond env fs0 inputPath outputPath videoBuffer options).fs ∧
    outputPath ∉
      (convertVideoToWebPSecond env fs0 inputPath outputPath videoBuffer options).fs ∧
    (∀ b1 b2 : Bool,
      (convertVideoToWebP { env with unlinkInputFails := b1, unlinkOutputFails := b2 }
          fs0 inputPath outputPath videoBuffer options).result =
        (convertVideoToWebP env fs0 inputPath outputPath videoBuffer options).result) ∧
    ∀ b1 b2 : Bool,
      (convertVideoToWebPSecond { env with unlinkInputFails := b1, unlinkOutputFails := b2 }
          fs0 inputPath outputPath videoBuffer options).result =
        (convertVideoToWebPSecond env fs0 inputPath outputPath videoBuffer options).result := by
  obtain ⟨fsX, cmds, r, heq⟩ :=
    convert_is_cleanup env fs0 inputPath outputPath videoBuffer options
  obtain ⟨fsY, cmds2, r2, heq2⟩ :=
    convertSecond_is_cleanup env fs0 inputPath outputPath videoBuffer options
  have h := cleanupTemp_not_mem env inputPath outputPath fsX cmds r hin hout
  have h2 := cleanupTemp_not_mem env inputPath outputPath fsY cmds2 r2 hin hout
  refine ⟨?_, ?_, ?_, ?_, ?_, ?_⟩
  · rw [heq]; exact h.1
  · rw [heq]; exact h.2
  · rw [heq2]; exact h2.1
  · rw [heq2]; exact h2.2
  · exact fun b1 b2 =>
      convert_unlink_independent env fs0 inputPath outputPath videoBuffer options b1 b2
  · exact fun b1 b2 =>
      convertSecond_unlink_independent env fs0 inputPath outputPath videoBuffer options b1 b2

/-- Witness for C1: the all-success environment at concrete temp paths. -/
theorem transcode_cleanup_every_exit_path_witness :
    demoTranscodeEnv.unlinkInputFails = false ∧
    demoTranscodeEnv.unlinkOutputFails = false ∧
    "in.mp4" ∉ (convertVideoToWebP demoTranscodeEnv [] "in.mp4" "out.webp" [1] {}).fs ∧
    "out.webp" ∉ (convertVideoToWebP demoTranscodeEnv [] "in.mp4" "out.webp" [1] {}).fs :=
  ⟨rfl, rfl,
   (transcode_cleanup_every_exit_path demoTranscodeEnv [] "in.mp4" "out.webp" [1] {}
      rfl rfl).1,
   (transcode_cleanup_every_exit_path demoTranscodeEnv [] "in.mp4" "out.webp" [1] {}
      rfl rfl).2.1⟩

/-- C2 counterexample: in the second convertVideoToWebP variant, the quality
placed in the subprocess command line is the raw input 99, not a boundary of
the configured 60-70 band. -/
theorem transcode_raw_quality_counterexample :
    (convertVideoToWebPSecond demoTranscodeEnv [] "in.mp4" "out.webp" [0]
        { quality := some 99, fps := some 30 }).cmds =
      [ffmpegCommandV2 "in.mp4" "out.webp" 99 30] ∧
    includes (ffmpegCommandV2 "in.mp4" "out.webp" 99 30) "-quality 99" = true ∧
    includes (ffmpegCommandV2 "in.mp4" "out.webp" 99 30) "-quality 70" = false ∧
    includes (ffmpegCommandV2 "in.mp4" "out.webp" 99 30) "-quality 60" = false := by
  decide

/-- C2 amended: in the first convertVideoToWebP variant the quality placed in
the command line is clamped into the 60-70 band (inputs below use 60, inputs
above use 70, the default 85 yields 70), while the second variant places the
raw quality value in its command line. -/
theorem transcode_quality_clamped_variants (env : TranscodeEnv) (fs0 : Fs)
    (i o : String) (buf : List Nat) (q fps : Int) (henv : env.writeErr = none) :
    (convertVideoToWebP env fs0 i o buf { quality := some q, fps := some fps }).cmds =
      [ffmpegCommandV1 i o (adjustedQuality q) fps] ∧
    60 ≤ adjustedQuality q ∧ adjustedQuality q ≤ 70 ∧
    (q ≤ 60 → adjustedQuality q = 60) ∧ (70 ≤ q → adjustedQuality q = 70) ∧
    (60 ≤ q → q ≤ 70 → adjustedQuality q = q) ∧
    (convertVideoToWebP env fs0 i o buf { fps := some fps }).cmds =
      [ffmpegCommandV1 i o 70 fps] ∧
    (convertVideoToWebPSecond env fs0 i o buf { quality := some q, fps := some fps }).cmds =
      [ffmpegCommandV2 i o q fps] := by
  refine ⟨convert_cmds_eq env fs0 i o buf _ henv, ?_, ?_, ?_, ?_, ?_, ?_, ?_⟩
  · simp only [adjustedQuality]; omega
  · simp only [adjustedQuality]; omega
  · intro h; simp only [adjustedQuality]; omega
  · intro h; simp only [adjustedQuality]; omega
  · intro h1 h2; simp only [adjustedQuality]; omega
  · have h := convert_cmds_eq env fs0 i o buf { fps := some fps } henv
    simpa [adjustedQuality] using h
  · exact convertSecond_cmds_eq env fs0 i o buf _ henv

/-- Witness for the amended C2: concrete all-success environment, quality 10
clamps to 60 in the first variant. -/
theorem transcode_quality_clamped_variants_witness :
    demoTranscodeEnv.writeErr = none ∧
    (convertVideoToWebP demoTranscodeEnv [] "i.mp4" "o.webp" [0]
        { quality := some 10, fps := some 30 }).cmds =
      [ffmpegCommandV1 "i.mp4" "o.webp" (adjustedQuality 10) 30] ∧
    adjustedQuality 10 = 60 :=
  ⟨rfl,
   (transcode_quality_clamped_variants demoTranscodeEnv [] "i.mp4" "o.webp" [0] 10 30 rfl).1,
   (transcode_quality_clamped_variants demoTranscodeEnv [] "i.mp4" "o.webp" [0] 10 30 rfl).2.2.2.1
     (by decide)⟩

theorem acquireSeq_cached (p : Nat) : ∀ (n : Nat) (s : BrowserModule),
    s.browserPromise = some p → acquireSeq n s = (s, List.replicate n p) := by
  intro n
  induction n with
  | zero => intro s hs; simp [acquireSeq]
  | succ m ih =>
      intro s hs
      have h1 : getSharedRemotionBrowser s = (s, p) := by
        unfold getSharedRemotionBrowser; rw [hs]
      simp [acquireSeq, h1, ih s hs, List.replicate]

/-- C3: every sequence of acquire calls made while the handle is uninitialized
starts openBrowser at most once; every caller receives the same promise, hence
the same eventual outcome, whether it is a success or a failure. -/
theorem browser_single_flight (n : Nat) (outcome : Nat → PromiseOutcome) :
    (acquireSeq n browserInit).1.openBrowserCalls = min n 1 ∧
    (acquireSeq n browserInit).2 = List.replicate n 0 ∧
    ∀ p ∈ (acquireSeq n browserInit).2, outcome p = outcome 0 := by
  cases n with
  | zero => simp [acquireSeq, browserInit]
  | succ m =>
      have h1 : getSharedRemotionBrowser browserInit =
          ({ browserPromise := some 0, openBrowserCalls := 1 }, 0) := rfl
      have h2 : acquireSeq m { browserPromise := some 0, openBrowserCalls := 1 } =
          ({ browserPromise := some 0, openBrowserCalls := 1 }, List.replicate m 0) :=
        acquireSeq_cached 0 m _ rfl
      refine ⟨?_, ?_, ?_⟩
      · simp [acquireSeq, h1, h2]
      · simp [acquireSeq, h1, h2, List.replicate]
      · intro p hp
        have hrep : (acquireSeq (m + 1) browserInit).2 = List.replicate (m + 1) 0 := by
          simp [acquireSeq, h1, h2, List.replicate]
        rw [hrep] at hp
        rw [List.eq_of_mem_replicate hp]

/-- Witness for C3 at ten concurrent acquire calls. -/
theorem browser_single_flight_witness :
    (acquireSeq 10 browserInit).1.openBrowserCalls = min 10 1 ∧
    (acquireSeq 10 browserInit).2 = List.replicate 10 0 :=
  ⟨(browser_single_flight 10 failingOutcome).1,
   (browser_single_flight 10 failingOutcome).2.1⟩

/-- C4 counterexample: in a world where the initialization promise 0 is
rejected, the handle still caches promise 0 after the failure — it is not back
in the uninitialized state — and a second acquire returns the very same
rejected promise without calling openBrowser again. -/
theorem browser_no_reset_counterexample :
    failingOutcome ((getSharedRemotionBrowser browserInit).2) =
      .failure "browser launch failed" ∧
    (getSharedRemotionBrowser browserInit).1.browserPromise = some 0 ∧
    (getSharedRemotionBrowser (getSharedRemotionBrowser browserInit).1).1.openBrowserCalls = 1 ∧
    (getSharedRemotionBrowser (getSharedRemotionBrowser browserInit).1).2 = 0 ∧
    failingOutcome ((getSharedRemotionBrowser (getSharedRemotionBrowser browserInit).1).2) =
      .failure "browser launch failed" := by
  decide

/-- C4 amended: if initialization fails, the failure is surfaced to the waiters,
but the handle does not reset to uninitialized: the rejected promise stays
cached, every later acquire returns the same promise with the same failure, and
openBrowser is never started a second time. -/
theorem browser_failure_sticky (outcome : Nat → PromiseOutcome) (m : String) (n : Nat)
    (hfail : outcome 0 = .failure m) :
    outcome ((getSharedRemotionBrowser browserInit).2) = .failure m ∧
    (acquireSeq n (getSharedRemotionBrowser browserInit).1).1.openBrowserCalls = 1 ∧
    (acquireSeq n (getSharedRemotionBrowser browserInit).1).2 = List.replicate n 0 ∧
    ∀ p ∈ (acquireSeq n (getSharedRemotionBrowser browserInit).1).2,
      outcome p = .failure m := by
  have hstate : (getSharedRemotionBrowser browserInit).1 =
      { browserPromise := some 0, openBrowserCalls := 1 } := rfl
  have h2 : acquireSeq n { browserPromise := some 0, openBrowserCalls := 1 } =
      ({ browserPromise := some 0, openBrowserCalls := 1 }, List.replicate n 0) :=
    acquireSeq_cached 0 n _ rfl
  refine ⟨hfail, ?_, ?_, ?_⟩
  · rw [hstate, h2]
  · rw [hstate, h2]
  · intro p hp
    rw [hstate, h2] at hp
    rw [List.eq_of_mem_replicate hp]
    exact hfail

/-- Witness for the amended C4: the all-failing world, five later acquires. -/
theorem browser_failure_sticky_witness :
    failingOutcome 0 = .failure "browser launch failed" ∧
    (acquireSeq 5 (getSharedRemotionBrowser browserInit).1).1.openBrowserCalls = 1 ∧
    (acquireSeq 5 (getSharedRemotionBrowser browserInit).1).2 = List.replicate 5 0 :=
  ⟨rfl,
   (browser_failure_sticky failingOutcome "browser launch failed" 5 rfl).2.1,
   (browser_failure_sticky failingOutcome "browser launch failed" 5 rfl).2.2.1⟩

/-- C10: when the cached initialization promise was rejected,
closeSharedRemotionBrowser propagates that rejection as its own error and
leaves the module state unchanged — the cached promise stays in place — so the
call is not a no-op and a subsequent acquire returns the same promise and
observes the same already-failed outcome. -/
theorem close_rejected_promise (outcome : Nat → PromiseOutcome)
    (closeResult : Nat → Except String Unit) (s : BrowserModule) (p : Nat) (m : String)
    (hp : s.browserPromise = some p) (hfail : outcome p = .failure m) :
    closeSharedRemotionBrowser outcome closeResult s = (s, .error m) ∧
    (getSharedRemotionBrowser s).1 = s ∧
    (getSharedRemotionBrowser s).2 = p ∧
    outcome (getSharedRemotionBrowser s).2 = .failure m := by
  have hacq : getSharedRemotionBrowser s = (s, p) := by
    unfold getSharedRemotionBrowser; rw [hp]
  have hclose : closeSharedRemotionBrowser outcome closeResult s = (s, .error m) := by
    unfold closeSharedRemotionBrowser
    rw [hp]
    simp [hfail]
  refine ⟨hclose, ?_, ?_, ?_⟩
  · rw [hacq]
  · rw [hacq]
  · rw [hacq]; exact hfail

/-- Witness for C10: a module holding the rejected promise 0. -/
theorem close_rejected_promise_witness :
    demoBrowserState.browserPromise = some 0 ∧
    failingOutcome 0 = .failure "browser launch failed" ∧
    closeSharedRemotionBrowser failingOutcome (fun _ => .ok ()) demoBrowserState =
      (demoBrowserState, .error "browser launch failed") :=
  ⟨rfl, rfl,
   (close_rejected_promise failingOutcome (fun _ => .ok ()) demoBrowserState 0
      "browser launch failed" rfl rfl).1⟩

/-- C9: Modelled from the spec — in every pool state reachable from the empty
pool, at most W jobs are in the active state simultaneously, whatever burst of
submissions and dispatches produced it. -/
theorem pool_active_bounded (W : Nat) (s : PoolState) (h : PoolReachable W s) :
    s.active.length ≤ W := by
  have hW : s.active.length ≤ s.maxW ∧ s.maxW = W := by
    induction h with
    | refl => exact ⟨Nat.zero_le _, rfl⟩
    | tail hr hstep ih =>
        rename_i b c
        cases hstep with
        | submit j => exact ih
        | dispatch j rest hq hlt =>
            refine ⟨?_, ih.2⟩
            simpa using hlt
        | finish j hj =>
            refine ⟨?_, ih.2⟩
            exact le_trans (List.Sublist.length_le (List.erase_sublist j b.active)) ih.1
  omega

/-- Witness for C9: a pool with limit one, after one submission and one
dispatch, has one active job, within the bound. -/
theorem pool_active_bounded_witness :
    PoolReachable 1 { maxW := 1, queued := [], active := [7], terminal := [] } ∧
    ({ maxW := 1, queued := [], active := [7], terminal := [] } : PoolState).active.length ≤ 1 := by
  have h1 : PoolStep (poolInit 1)
      { maxW := 1, queued := [7], active := [], terminal := [] } :=
    PoolStep.submit (poolInit 1) 7
  have h2 : PoolStep { maxW := 1, queued := [7], active := [], terminal := [] }
      { maxW := 1, queued := [], active := [7], terminal := [] } :=
    PoolStep.dispatch { maxW := 1, queued := [7], active := [], terminal := [] } 7 []
      rfl (by decide)
  have hreach : PoolReachable 1 { maxW := 1, queued := [], active := [7], terminal := [] } :=
    Relation.ReflTransGen.tail (Relation.ReflTransGen.tail Relation.ReflTransGen.refl h1) h2
  exact ⟨hreach, pool_active_bounded 1 _ hreach⟩

theorem withRetryGo_ok {α : Type} (fn : Nat → AttemptBehavior α) (opts : RetryOpts) :
    ∀ (k r attempt : Nat) (lastErr : String) (sleeps : Nat) (v : α),
      k < r →
      (∀ i, i < k → ∃ e, attemptResult fn opts (attempt + i) = .error e) →
      attemptResult fn opts (attempt + k) = .ok v →
      withRetryGo fn opts r attempt lastErr sleeps = (.ok v, sleeps + k) := by
  intro k
  induction k with
  | zero =>
      intro r attempt lastErr sleeps v hk hfail hok
      obtain ⟨r0, rfl⟩ : ∃ r0, r = r0 + 1 := ⟨r - 1, by omega⟩
      rw [Nat.add_zero] at hok
      simp only [withRetryGo, hok, Nat.add_zero]
  | succ k ih =>
      intro r attempt lastErr sleeps v hk hfail hok
      obtain ⟨r0, rfl⟩ : ∃ r0, r = r0 + 1 := ⟨r - 1, by omega⟩
      obtain ⟨e, he⟩ := hfail 0 (Nat.succ_pos k)
      rw [Nat.add_zero] at he
      simp only [withRetryGo, he]
      have hr0 : ¬ r0 = 0 := by omega
      rw [if_neg hr0]
      have hrec := ih r0 (attempt + 1) e (sleeps + 1) v (by omega)
        (fun i hi => by
          have harith : attempt + 1 + i = attempt + (i + 1) := by omega
          rw [harith]
          exact hfail (i + 1) (by omega))
        (by
          have harith : attempt + 1 + k = attempt + (k + 1) := by omega
          rw [harith]
          exact hok)
      rw [hrec]
      have harith : sleeps + 1 + k = sleeps + (k + 1) := by omega
      rw [harith]

theorem withRetryGo_fail {α : Type} (fn : Nat → AttemptBehavior α) (opts : RetryOpts)
    (errOf : Nat → String) :
    ∀ (r attempt : Nat) (lastErr : String) (sleeps : Nat),
      1 ≤ r →
      (∀ i, i < r → attemptResult fn opts (attempt + i) = .error (errOf (attempt + i))) →
      withRetryGo fn opts r attempt lastErr sleeps =
        (.error (aggregatedMessage opts.name opts.attempts (errOf (attempt + r - 1))),
         sleeps + (r - 1)) := by
  intro r
  induction r with
  | zero =>
      intro attempt lastErr sleeps h1 hfail
      exact absurd h1 (by decide)
  | succ r0 ih =>
      intro attempt lastErr sleeps h1 hfail
      have he := hfail 0 (Nat.succ_pos r0)
      rw [Nat.add_zero] at he
      simp only [withRetryGo, he]
      by_cases hr0 : r0 = 0
      · subst hr0
        rw [if_pos rfl]
        simp only [withRetryGo]
        simp
      · rw [if_neg hr0]
        have hrec := ih (attempt + 1) (errOf attempt) (sleeps + 1) (by omega)
          (fun i hi => by
            have harith : attempt + 1 + i = attempt + (i + 1) := by omega
            rw [harith]
            exact hfail (i + 1) (by omega))
        rw [hrec]
        have ha1 : attempt + 1 + r0 - 1 = attempt + (r0 + 1) - 1 := by omega
        have ha2 : sleeps + 1 + (r0 - 1) = sleeps + (r0 + 1 - 1) := by omega
        rw [ha1, ha2]

/-- C5: wrapped in withRetry with attempts A, delay D and per-attempt deadline
T, an attempt that succeeds within its deadline returns its result at once with
a delay slept after each failed attempt before it and none after it; when all A
attempts fail, the combinator fails with the single aggregated error naming the
operation, the total attempt count A and the last underlying error, having
slept only between attempts, A - 1 times. -/
theorem withRetry_contract {α : Type} (fn : Nat → AttemptBehavior α) (opts : RetryOpts)
    (hA : 1 ≤ opts.attempts) :
    (∀ k v, 1 ≤ k → k ≤ opts.attempts →
        (∀ i, 1 ≤ i → i < k → ∃ e, attemptResult fn opts i = .error e) →
        attemptResult fn opts k = .ok v →
        withRetry fn opts = (.ok v, k - 1)) ∧
    (∀ errOf : Nat → String,
        (∀ i, 1 ≤ i → i ≤ opts.attempts → attemptResult fn opts i = .error (errOf i)) →
        withRetry fn opts =
          (.error (aggregatedMessage opts.name opts.attempts (errOf opts.attempts)),
           opts.attempts - 1)) := by
  constructor
  · intro k v hk1 hk2 hfail hok
    unfold withRetry
    have hmain := withRetryGo_ok fn opts (k - 1) opts.attempts 1 "undefined" 0 v (by omega)
      (fun i hi => hfail (1 + i) (by omega) (by omega))
      (by
        have harith : 1 + (k - 1) = k := by omega
        rw [harith]
        exact hok)
    rw [hmain]
    have harith : 0 + (k - 1) = k - 1 := by omega
    rw [harith]
  · intro errOf hfail
    unfold withRetry
    have hmain := withRetryGo_fail fn opts errOf opts.attempts 1 "undefined" 0 hA
      (fun i hi => hfail (1 + i) (by omega) (by omega))
    rw [hmain]
    have ha1 : 1 + opts.attempts - 1 = opts.attempts := by omega
    have ha2 : 0 + (opts.attempts - 1) = opts.attempts - 1 := by omega
    rw [ha1, ha2]

/-- Witness for C5: first attempt fails, second succeeds within the deadline;
the result is returned at once with exactly one delay slept. -/
theorem withRetry_contract_witness :
    1 ≤ demoRetryOpts.attempts ∧ withRetry demoRetryFn demoRetryOpts = (.ok 42, 1) := by
  refine ⟨by decide, ?_⟩
  have h := (withRetry_contract demoRetryFn demoRetryOpts (by decide)).1 2 42
    (by decide) (by decide)
    (fun i h1 h2 => ⟨"boom", by
      have hi : i = 1 := by omega
      subst hi
      rfl⟩)
    rfl
  simpa using h

theorem withTimeout_of_timesOut {α : Type} (b : AttemptBehavior α) (timeoutMs : Nat)
    (name : String) (h : timesOutAgainst b timeoutMs = true) :
    withTimeout b timeoutMs name = .error (timeoutMessage name timeoutMs) := by
  cases hs : b.settleTime with
  | none => unfold withTimeout; rw [hs]
  | some t =>
      have h2 : timeoutMs < t := by
        unfold timesOutAgainst at h
        rw [hs] at h
        simpa using h
      unfold withTimeout
      rw [hs]
      show (if t ≤ timeoutMs then b.result
          else Except.error (timeoutMessage name timeoutMs)) =
        Except.error (timeoutMessage name timeoutMs)
      rw [if_neg (by omega)]

/-- C6: an attempt that exceeds the per-attempt deadline is a failed attempt
whose error is the timeout message, a message that contains the operation name
and the phrase naming the deadline; an attempt whose operation raised its own
error keeps that message unchanged, so whenever the operation message differs
from the timeout message the two failure kinds stay distinguishable; inside the
retry loop a timed-out attempt likewise fails with exactly the timeout message. -/
theorem withTimeout_distinguishes {α : Type} (b : AttemptBehavior α) (timeoutMs : Nat)
    (name e : String) (hne : e ≠ timeoutMessage name timeoutMs) :
    (timesOutAgainst b timeoutMs = true →
        withTimeout b timeoutMs name = .error (timeoutMessage name timeoutMs)) ∧
    includes (timeoutMessage name timeoutMs) name = true ∧
    includes (timeoutMessage name timeoutMs)
      ("timed out after " ++ toString timeoutMs ++ "ms") = true ∧
    (∀ t, b.settleTime = some t → t ≤ timeoutMs → b.result = .error e →
        withTimeout b timeoutMs name = .error e ∧
        withTimeout b timeoutMs name ≠ .error (timeoutMessage name timeoutMs)) ∧
    (∀ (fn : Nat → AttemptBehavior α) (opts : RetryOpts) (i : Nat),
        timesOutAgainst (fn i) opts.timeoutMs = true →
        attemptResult fn opts i = .error (timeoutMessage opts.name opts.timeoutMs)) := by
  refine ⟨withTimeout_of_timesOut b timeoutMs name, ?_, ?_, ?_, ?_⟩
  · exact includes_of_data []
      ((" timed out after " ++ toString timeoutMs ++ "ms").data)
      (by simp [timeoutMessage, String.data_append])
  · refine includes_of_data (name.data ++ [' ']) []
      (by
        have hsp : (" timed out after ").data = ' ' :: ("timed out after ").data := by decide
        simp [timeoutMessage, String.data_append, hsp])
  · intro t hst hle hres
    have hw : withTimeout b timeoutMs name = .error e := by
      unfold withTimeout
      rw [hst]
      show (if t ≤ timeoutMs then b.result
          else Except.error (timeoutMessage name timeoutMs)) = Except.error e
      rw [if_pos hle, hres]
    refine ⟨hw, ?_⟩
    rw [hw]
    simp [hne]
  · intro fn opts i h
    exact withTimeout_of_timesOut (fn i) opts.timeoutMs opts.name h

/-- Witness for C6: an operation that never settles against a 100ms deadline. -/
theorem withTimeout_distinguishes_witness :
    "boom" ≠ timeoutMessage "op" 100 ∧
    timesOutAgainst (demoHangingFn 1) 100 = true ∧
    withTimeout (demoHangingFn 1) 100 "op" = .error (timeoutMessage "op" 100) ∧
    includes (timeoutMessage "op" 100) "op" = true := by
  refine ⟨by decide, by decide, ?_, ?_⟩
  · exact (withTimeout_distinguishes (demoHangingFn 1) 100 "op" "boom" (by decide)).1
      (by decide)
  · exact (withTimeout_distinguishes (demoHangingFn 1) 100 "op" "boom" (by decide)).2.1

theorem withRetry_one_succeeds {α : Type} (fn : Nat → AttemptBehavior α) (opts : RetryOpts)
    (h1 : opts.attempts = 1) :
    succeeds (withRetry fn opts).1 = succeeds (attemptResult fn opts 1) := by
  unfold withRetry
  rw [h1]
  cases h : attemptResult fn opts 1 with
  | ok v => simp only [withRetryGo, h, succeeds]
  | error e => simp only [withRetryGo, h, if_pos, succeeds]

theorem readyVerdict_cases :
    ∀ x y z : Bool,
      ((readyVerdict x y z).status = "ready" ↔
        (readyVerdict x y z).redisCheck = true ∧ (readyVerdict x y z).minioCheck = true ∧
        (readyVerdict x y z).githubCheck = true) ∧
      ((readyVerdict x y z).httpStatus = 200 ↔ (readyVerdict x y z).status = "ready") ∧
      ((readyVerdict x y z).status = "ready" ∨
        ((readyVerdict x y z).status = "degraded" ∧
          (readyVerdict x y z).httpStatus = 503)) := by
  decide

/-- C7: in readiness-probe mode each dependency check runs with attempts forced
to one and a short per-attempt deadline — the recorded boolean of each
dependency is decided by the first attempt alone, under deadlines 1500ms for
redis and 4000ms for minio and github — one failing check never prevents the
others from being checked and reported, since every recorded boolean depends
only on its own probe, and the response is ready with HTTP 200 exactly when
every checked dependency passed, otherwise degraded with HTTP 503. -/
theorem readyEndpoint_contract (env : EnvConfig) (b : DependencyBehaviors) :
    (readyEndpoint env b).serverCheck = true ∧
    (readyEndpoint env b).redisCheck =
      succeeds (withTimeout (redisProbeFn b.ping 1) 1500 (redisCheckName env)) ∧
    (readyEndpoint env b).minioCheck =
      succeeds (withTimeout (b.ensureBucket 1) 4000 (minioCheckName env)) ∧
    (readyEndpoint env b).githubCheck =
      succeeds (withTimeout (b.githubAppAuth 1) 4000 (githubCheckName env)) ∧
    ((readyEndpoint env b).status = "ready" ↔
      (readyEndpoint env b).redisCheck = true ∧ (readyEndpoint env b).minioCheck = true ∧
      (readyEndpoint env b).githubCheck = true) ∧
    ((readyEndpoint env b).httpStatus = 200 ↔ (readyEndpoint env b).status = "ready") ∧
    ((readyEndpoint env b).status = "ready" ∨
      ((readyEndpoint env b).status = "degraded" ∧
        (readyEndpoint env b).httpStatus = 503)) := by
  have hr := withRetry_one_succeeds (redisProbeFn b.ping)
    (redisRetryOpts env { attempts := some 1, timeoutMs := some 1500, delayMs := some 0 }) rfl
  have hm := withRetry_one_succeeds b.ensureBucket
    (minioRetryOpts env { attempts := some 1, timeoutMs := some 4000, delayMs := some 0 }) rfl
  have hg := withRetry_one_succeeds b.githubAppAuth
    (githubRetryOpts env { attempts := some 1, timeoutMs := some 4000, delayMs := some 0 }) rfl
  refine ⟨rfl, hr, hm, hg, ?_, ?_, ?_⟩
  · exact (readyVerdict_cases _ _ _).1
  · exact (readyVerdict_cases _ _ _).2.1
  · exact (readyVerdict_cases _ _ _).2.2

theorem runStartupChecks_api_ignores_warmup (env : EnvConfig) (b : DependencyBehaviors)
    (w : Nat → AttemptBehavior Unit) :
    runStartupChecks .api env { b with warmupBundle := w } = runStartupChecks .api env b := by
  unfold runStartupChecks
  have h1 : checkRedisReachable env { b with warmupBundle := w } {} =
      checkRedisReachable env b {} := rfl
  have h2 : checkMinioReachable env { b with warmupBundle := w } {} =
      checkMinioReachable env b {} := rfl
  have h3 : checkGitHubAppReachable env { b with warmupBundle := w } {} =
      checkGitHubAppReachable env b {} := rfl
  rw [h1, h2, h3]

/-- C8: the startup checks use the tuning defaults of the source — queue/cache
store 10 attempts, 1.5s delay, 5s timeout; object store 10 attempts, 2s delay,
15s timeout; auth provider 5 attempts, 2s delay, 15s timeout; rendering-engine
warmup 3 attempts, 2s delay, 120s timeout — they run sequentially, the first
check failure propagates as the result and stops the remaining checks, the
warmup check runs exactly for the worker role, and the api role ignores the
warmup behavior entirely. -/
theorem runStartupChecks_contract (role : ServiceRole) (env : EnvConfig)
    (b : DependencyBehaviors) :
    redisRetryOpts env {} =
      { name := redisCheckName env, attempts := 10, delayMs := 1500, timeoutMs := 5000 } ∧
    minioRetryOpts env {} =
      { name := minioCheckName env, attempts := 10, delayMs := 2000, timeoutMs := 15000 } ∧
    githubRetryOpts env {} =
      { name := githubCheckName env, attempts := 5, delayMs := 2000, timeoutMs := 15000 } ∧
    warmupRetryOpts =
      { name := "Remotion bundle warmup", attempts := 3, delayMs := 2000,
        timeoutMs := 120000 } ∧
    (∀ e, (checkRedisReachable env b {}).1 = .error e →
        runStartupChecks role env b = (.error e, [.redis])) ∧
    (∀ e, (checkRedisReachable env b {}).1 = .ok () →
        (checkMinioReachable env b {}).1 = .error e →
        runStartupChecks role env b = (.error e, [.redis, .minio])) ∧
    (∀ e, (checkRedisReachable env b {}).1 = .ok () →
        (checkMinioReachable env b {}).1 = .ok () →
        (checkGitHubAppReachable env b {}).1 = .error e →
        runStartupChecks role env b = (.error e, [.redis, .minio, .github])) ∧
    ((checkRedisReachable env b {}).1 = .ok () →
        (checkMinioReachable env b {}).1 = .ok () →
        (checkGitHubAppReachable env b {}).1 = .ok () →
        runStartupChecks .api env b = (.ok (), [.redis, .minio, .github])) ∧
    (∀ e, (checkRedisReachable env b {}).1 = .ok () →
        (checkMinioReachable env b {}).1 = .ok () →
        (checkGitHubAppReachable env b {}).1 = .ok () →
        (checkRendererWarmup b).1 = .error e →
        runStartupChecks .worker env b = (.error e, [.redis, .minio, .github, .warmup])) ∧
    ((checkRedisReachable env b {}).1 = .ok () →
        (checkMinioReachable env b {}).1 = .ok () →
        (checkGitHubAppReachable env b {}).1 = .ok () →
        (checkRendererWarmup b).1 = .ok () →
        runStartupChecks .worker env b = (.ok (), [.redis, .minio, .github, .warmup])) ∧
    (∀ w, runStartupChecks .api env { b with warmupBundle := w } =
        runStartupChecks .api env b) := by
  refine ⟨rfl, rfl, rfl, rfl, ?_, ?_, ?_, ?_, ?_, ?_,
    fun w => runStartupChecks_api_ignores_warmup env b w⟩
  · intro e h
    unfold runStartupChecks
    rw [h]
  · intro e h1 h2
    unfold runStartupChecks
    rw [h1, h2]
  · intro e h1 h2 h3
    unfold runStartupChecks
    rw [h1, h2, h3]
  · intro h1 h2 h3
    unfold runStartupChecks
    rw [h1, h2, h3]
  · intro e h1 h2 h3 h4
    unfold runStartupChecks
    rw [h1, h2, h3, h4]
  · intro h1 h2 h3 h4
    unfold runStartupChecks
    rw [h1, h2, h3, h4]

/-- Witness for C8: with all dependencies healthy the worker startup runs all
four checks and succeeds; with the object store down, startup stops at the
minio check and fails with its aggregated ten-attempt error. -/
theorem runStartupChecks_contract_witness :
    (checkRedisReachable demoEnvConfig allGoodBehaviors {}).1 = .ok () ∧
    (checkMinioReachable demoEnvConfig allGoodBehaviors {}).1 = .ok () ∧
    (checkGitHubAppReachable demoEnvConfig allGoodBehaviors {}).1 = .ok () ∧
    (checkRendererWarmup allGoodBehaviors).1 = .ok () ∧
    runStartupChecks .worker demoEnvConfig allGoodBehaviors =
      (.ok (), [.redis, .minio, .github, .warmup]) ∧
    runStartupChecks .api demoEnvConfig minioDownBehaviors =
      (.error (aggregatedMessage (minioCheckName demoEnvConfig) 10 "bucket unreachable"),
       [.redis, .minio]) := by
  refine ⟨rfl, rfl, rfl, rfl, ?_, ?_⟩
  · exact (runStartupChecks_contract .worker demoEnvConfig
      allGoodBehaviors).2.2.2.2.2.2.2.2.2.1 rfl rfl rfl rfl
  · exact (runStartupChecks_contract .api demoEnvConfig
      minioDownBehaviors).2.2.2.2.2.1
      (aggregatedMessage (minioCheckName demoEnvConfig) 10 "bucket unreachable") rfl rfl

end GHStats
